import Mathlib

/-!
Shallow embedding of `src/Main.py` (AnimeOsint-telgram), the anime
screenshot reverse-search Telegram bot, together with proofs about the
search-and-format pipeline.

Modelling conventions:
* Python floats are modelled as rationals (`ℚ`); `int(x)` is truncation
  toward zero, `//` and `%` are Python floor division and modulo
  (`Int.fdiv` / `Int.fmod`).
* The dict returned by `submit_search` is modelled by `SearchReply`; its
  `Option` fields record presence of the `"video"` / `"is_adult"` keys,
  and Python truthiness of `dict.get` is modelled by `truthyVideo` /
  `truthyAdult`.
* Each network call is modelled by an oracle value describing the remote
  response, including the case in which the call raises an exception.
* `handle_message` returns the list of outbound chat actions performed;
  the `try`/`except` body is `tryBody`, whose `Except.error` case carries
  the actions already performed and whether the loading message was sent,
  exactly the information the boundary handler uses.
-/

namespace AnimeOsint

/-- Python `int(x)` on a rational: truncation toward zero. -/
def pyInt (q : ℚ) : ℤ := q.num.tdiv q.den

/-- Python `f"{i:02}"`: decimal representation left-padded with zeros to
width 2 (a negative number of magnitude below 10 already has width 2). -/
def fmt02 (i : ℤ) : String :=
  if i < 0 then toString i
  else if i < 10 then "0" ++ toString i.toNat
  else toString i.toNat

/-- Spec-side zero padding to two digits on naturals. -/
def pad2 (n : ℕ) : String := if n < 10 then "0" ++ toString n else toString n

/-- `format_time` (Main.py lines 91–97): `sec_num = int(seconds)`,
hours/minutes/seconds by Python `//` and `%`, each rendered `f"{x:02}"`. -/
def format_time (seconds : ℚ) : String :=
  let sec_num : ℤ := pyInt seconds
  fmt02 (sec_num.fdiv 3600) ++ ":" ++ fmt02 ((sec_num.fmod 3600).fdiv 60) ++
    ":" ++ fmt02 (sec_num.fmod 60)

/-- Round to the nearest integer, ties to even (the rounding used by
Python float formatting, on the rational model of the value). -/
def roundHalfEven (q : ℚ) : ℤ :=
  let f : ℤ := ⌊q⌋
  if q - f < 1/2 then f
  else if 1/2 < q - f then f + 1
  else if f % 2 = 0 then f else f + 1

/-- Python `f"{q:.1f}"` on the rational model of the float. -/
def fmt1f (q : ℚ) : String :=
  let n : ℤ := roundHalfEven (q * 10)
  if n < 0 then "-" ++ toString ((-n).toNat / 10) ++ "." ++ toString ((-n).toNat % 10)
  else toString (n.toNat / 10) ++ "." ++ toString (n.toNat % 10)

/-- Line 238: reply when no image/GIF/video is found in the message. -/
def helpText : String := "⚠️ Please send an image, GIF, or video."

/-- Line 256: private message sent on adult content. -/
def pmAdultText : String := "🔞 Adult content detected. Details cannot be shown here."

/-- Line 258: in-chat sanitized notice when the private message fails. -/
def advisoryText : String := "🔞 Adult content detected. Please enable PM."

/-- Line 281: generic reply of the outermost exception handler. -/
def boundaryErrorText : String := "❌ An error occurred. Please try again later."

/-- Line 159: reply when the provider result list is empty. -/
def noResultsText : String := "❌ *No results found. Try a different image.*"

/-- Line 165: reply when the AniList lookup produced no data. -/
def failedDetailsText : String := "❌ *Failed to fetch anime details.*"

/-- Line 193: reply on `httpx.HTTPError` in `submit_search`. -/
def apiErrorText : String := "❌ *API error. Please try again later.*"

/-- Line 196: reply on any other exception in `submit_search`. -/
def unexpectedErrorText : String := "❌ *An error occurred. Please try again.*"

/-- The `title` object of the AniList `Media`; each variant may be null. -/
structure AnilistTitle where
  native : Option String
  romaji : Option String
  english : Option String
deriving DecidableEq

/-- The fields of the AniList `Media` object used by the formatter. -/
structure AnilistInfo where
  title : AnilistTitle
  isAdult : Bool
  genres : List String
deriving DecidableEq

/-- One entry of the trace.moe `result` list (the fields read by the code). -/
structure MatchResult where
  anilist : ℤ
  episode : Option ℤ
  fromSec : ℚ
  similarity : ℚ
  video : String
deriving DecidableEq

/-- Outcome of the AniList GraphQL POST: the request raises (network
failure, non-2xx via `raise_for_status`, malformed body), succeeds with a
missing/empty `data.Media`, or succeeds with a `Media` object. -/
inductive MetaResp where
  | raised
  | okEmpty
  | ok (info : AnilistInfo)
deriving DecidableEq

/-- `get_anilist_info` (lines 99–135): every exception is caught and `{}`
is returned; `none` models the falsy `{}` / missing `Media`. -/
def get_anilist_info : MetaResp → Option AnilistInfo
  | .raised => none
  | .okEmpty => none
  | .ok info => some info

/-- Python `filter(None, titles)` over the three optional titles: drops
null entries and (by Python truthiness) empty strings. -/
def pyFilterTitles (l : List (Option String)) : List String :=
  l.filterMap fun o => match o with
    | none => none
    | some s => if s.isEmpty then none else some s

/-- Lines 173–174: sequential de-duplication, appending each title not
seen before. -/
def unique_titles (l : List String) : List String :=
  l.foldl (fun acc t => if t ∈ acc then acc else acc ++ [t]) []

/-- Spec-side de-duplication: keep the first occurrence of each element,
in order. -/
def keepFirsts : List String → List String
  | [] => []
  | a :: as => a :: keepFirsts (as.filter (fun b => b != a))
termination_by l => l.length
decreasing_by simp only [List.length_cons]; exact Nat.lt_succ_of_le (List.length_filter_le _ _)

/-- Line 181: `result['episode'] or 'Unknown'` (0 and null are falsy). -/
def episodeText : Option ℤ → String
  | none => "Unknown"
  | some e => if e = 0 then "Unknown" else toString e

/-- Line 177: `" • ".join(genres[:3]) if genres else "N/A"`. -/
def genresText (genres : List String) : String :=
  if genres.isEmpty then "N/A" else String.intercalate " • " (genres.take 3)

/-- The reply text built in lines 179–184. -/
def resultText (result : MatchResult) (info : AnilistInfo) : String :=
  let uniq := unique_titles (pyFilterTitles
    [info.title.native, info.title.romaji, info.title.english])
  "🎯 *Anime Found!*\n\n" ++
  "*Titles:*\n" ++ String.intercalate "\n" (uniq.map (fun t => "• `" ++ t ++ "`")) ++ "\n\n" ++
  "*Episode:* `" ++ episodeText result.episode ++ "`\n" ++
  "*Timestamp:* `" ++ format_time result.fromSec ++ "`\n" ++
  "*Similarity:* `" ++ fmt1f (result.similarity * 100) ++ "%`\n\n" ++
  "*Genres:* `" ++ genresText info.genres ++ "`"

/-- Spec-side escaping of the markup escape character: each backslash is
doubled. -/
def escapeSpec (s : String) : String :=
  ⟨s.data.flatMap fun c => if c = '\\' then ['\\', '\\'] else [c]⟩

/-- `resultText` as the spec's words demand it: free-text fields (titles,
genres) are escaped before being placed in the reply text. -/
def resultTextEscaped (result : MatchResult) (info : AnilistInfo) : String :=
  let uniq := unique_titles (pyFilterTitles
    [info.title.native, info.title.romaji, info.title.english])
  "🎯 *Anime Found!*\n\n" ++
  "*Titles:*\n" ++ String.intercalate "\n" (uniq.map (fun t => "• `" ++ escapeSpec t ++ "`")) ++ "\n\n" ++
  "*Episode:* `" ++ episodeText result.episode ++ "`\n" ++
  "*Timestamp:* `" ++ format_time result.fromSec ++ "`\n" ++
  "*Similarity:* `" ++ fmt1f (result.similarity * 100) ++ "%`\n\n" ++
  "*Genres:* `" ++ escapeSpec (genresText info.genres) ++ "`"

/-- The dict returned by `submit_search`; `Option` fields model presence
of the `"video"` and `"is_adult"` keys. -/
structure SearchReply where
  text : String
  video : Option String
  is_adult : Option Bool
deriving DecidableEq

/-- Outcome of the trace.moe POST: an `httpx.HTTPError` (transport
failure or non-2xx), any other exception (malformed JSON, missing keys),
or a response whose `result` list is given (empty/missing modelled as `[]`). -/
inductive TraceResp where
  | raisedHttp
  | raisedOther
  | ok (results : List MatchResult)
deriving DecidableEq

/-- `submit_search` (lines 137–196). The two `except` arms make it total:
every outcome is a dict with a `"text"` key. -/
def submit_search (resp : TraceResp) (meta : MetaResp) : SearchReply :=
  match resp with
  | .raisedHttp => { text := apiErrorText, video := none, is_adult := none }
  | .raisedOther => { text := unexpectedErrorText, video := none, is_adult := none }
  | .ok [] => { text := noResultsText, video := none, is_adult := none }
  | .ok (result :: _) =>
    match get_anilist_info meta with
    | none => { text := failedDetailsText, video := none, is_adult := none }
    | some info =>
      { text := resultText result info
        video := some (result.video ++ "&size=l")
        is_adult := some info.isAdult }

/-- The per-request option flags (lines 227–232). -/
structure SearchOptions where
  no_crop : Bool
  mute : Bool
  skip : Bool
  from_id : ℤ
deriving DecidableEq

/-- Helper for Python's substring test over character lists. -/
def listIn (pat : List Char) : List Char → Bool
  | [] => pat.isEmpty
  | c :: rest => pat.isPrefixOf (c :: rest) || listIn pat rest

/-- Python `pat in s` on strings. -/
def strIn (pat s : String) : Bool := listIn pat.data s.data

/-- Python `str.lower()` (the caption flags are ASCII). -/
def pyLower (s : String) : String := ⟨s.data.map Char.toLower⟩

/-- Lines 227–232: flags are case-insensitive substrings of the caption. -/
def optsOfCaption (caption : Option String) (uid : ℤ) : SearchOptions :=
  let lowered := pyLower (caption.getD "")
  { no_crop := strIn "nocrop" lowered
    mute := strIn "mute" lowered
    skip := strIn "skip" lowered
    from_id := uid }

/-- Outcome of `download_image_file`: an exception while downloading, no
usable media in the message, or downloaded bytes. -/
inductive DownloadOutcome where
  | raised
  | noImage
  | fetched
deriving DecidableEq

/-- `download_image_file` (lines 198–216): exceptions are caught inside
the function and yield `None`, exactly like the no-media case. -/
def download_image_file : DownloadOutcome → Option Unit
  | .raised => none
  | .noImage => none
  | .fetched => some ()

/-- An outbound chat operation performed by `handle_message`. -/
inductive Action where
  | sendAnimation
  | deleteLoading
  | pm (text : String)
  | replyText (text : String)
  | replyVideo (url : String) (caption : String)
deriving DecidableEq

/-- Whether an action is a user-visible reply (the loading animation and
its deletion are transient indicators). -/
def isReply : Action → Bool
  | .sendAnimation => false
  | .deleteLoading => false
  | .pm _ => true
  | .replyText _ => true
  | .replyVideo _ _ => true

def replyCount (l : List Action) : ℕ := (l.filter isReply).length

/-- Python truthiness of `result.get("video")`. -/
def truthyVideo : Option String → Bool
  | none => false
  | some s => !s.isEmpty

/-- Python truthiness of `result.get("is_adult")`. -/
def truthyAdult : Option Bool → Bool
  | none => false
  | some b => b

/-- The environment of one `handle_message` invocation: the download
outcome, the two remote responses, and whether each outbound chat call
succeeds (`false` = the call raises). -/
structure Env where
  download : DownloadOutcome
  sendLoading : Bool
  trace : TraceResp
  meta : MetaResp
  deleteLoading : Bool
  sendPM : Bool
  sendAdvisory : Bool
  sendVideo : Bool
  sendText : Bool
  deleteInBoundary : Bool
deriving DecidableEq

/-- Lines 254–259: the adult-content branch. -/
def adultBranch (env : Env) (log : List Action) :
    Except (List Action × Bool) (List Action) :=
  match env.sendPM with
  | true => .ok (log ++ [.pm pmAdultText])
  | false =>
    match env.sendAdvisory with
    | true => .ok (log ++ [.replyText advisoryText])
    | false => .error (log, true)

/-- Lines 261–272: the preview-video / text-only branch. -/
def mediaBranch (opts : SearchOptions) (env : Env) (result : SearchReply)
    (log : List Action) : Except (List Action × Bool) (List Action) :=
  if truthyVideo result.video && !opts.skip then
    match env.sendVideo with
    | true => .ok (log ++ [.replyVideo
        (if opts.mute then result.video.getD "" ++ "&mute" else result.video.getD "")
        result.text])
    | false => .error (log, true)
  else
    match env.sendText with
    | true => .ok (log ++ [.replyText result.text])
    | false => .error (log, true)

/-- The body of the `try` in `handle_message` (lines 234–272). An
`Except.error (log, loadingSent)` is a raised exception reaching the
boundary: `log` holds the actions already performed and `loadingSent`
whether `loading_message` is set. -/
def tryBody (opts : SearchOptions) (env : Env) :
    Except (List Action × Bool) (List Action) :=
  match download_image_file env.download with
  | none => .ok [.replyText helpText]
  | some _ =>
    match env.sendLoading with
    | false => .error ([], false)
    | true =>
      let result := submit_search env.trace env.meta
      match env.deleteLoading with
      | false => .error ([.sendAnimation], true)
      | true =>
        if truthyAdult result.is_adult then
          adultBranch env [.sendAnimation, .deleteLoading]
        else
          mediaBranch opts env result [.sendAnimation, .deleteLoading]

/-- Lines 274–281: the boundary `except` converts any raise from the body
into the deletion attempt of the loading message (its own failure
swallowed) followed by the generic error reply. -/
def pipeline (opts : SearchOptions) (env : Env) : List Action :=
  match tryBody opts env with
  | .ok log => log
  | .error (log, loadingSent) =>
    log ++ (if loadingSent && env.deleteInBoundary then [Action.deleteLoading] else [])
      ++ [Action.replyText boundaryErrorText]

/-- `handle_message` (lines 218–281): derive the options from the caption
and sender, then run the guarded pipeline. -/
def handle_message (caption : Option String) (uid : ℤ) (env : Env) : List Action :=
  pipeline (optsOfCaption caption uid) env

/-- Whether the search reached the success path: a non-empty provider
result list and a non-empty AniList `Media`. -/
def successOutcome (t : TraceResp) (m : MetaResp) : Prop :=
  ∃ r rs info, t = TraceResp.ok (r :: rs) ∧ get_anilist_info m = some info

/-! ### The time formatter -/

lemma fmt02_natCast (n : ℕ) : fmt02 (n : ℤ) = pad2 n := by
  unfold fmt02 pad2
  rw [if_neg (by omega), Int.toNat_ofNat]
  by_cases h : n < 10
  · rw [if_pos (by exact_mod_cast h), if_pos h]
  · rw [if_neg (by exact_mod_cast h), if_neg h]

lemma pyInt_eq_floor {s : ℚ} (hs : 0 ≤ s) : pyInt s = ⌊s⌋ := by
  rw [pyInt, Rat.floor_def]
  exact Int.tdiv_eq_ediv (Rat.num_nonneg.mpr hs) (by positivity)

lemma format_time_spec (s : ℚ) (hs : 0 ≤ s) :
    format_time s = pad2 (⌊s⌋.toNat / 3600) ++ ":" ++ pad2 (⌊s⌋.toNat % 3600 / 60)
      ++ ":" ++ pad2 (⌊s⌋.toNat % 60) := by
  obtain ⟨m, hm⟩ := Int.eq_ofNat_of_zero_le (Int.floor_nonneg.mpr hs)
  unfold format_time
  rw [pyInt_eq_floor hs, hm, Int.toNat_ofNat]
  show fmt02 ((m : ℤ).fdiv 3600) ++ ":" ++ fmt02 (((m : ℤ).fmod 3600).fdiv 60)
      ++ ":" ++ fmt02 ((m : ℤ).fmod 60) = _
  rw [
    show ((m : ℤ).fdiv 3600) = ((m / 3600 : ℕ) : ℤ) from (Int.ofNat_fdiv m 3600).symm,
    show ((m : ℤ).fmod 3600) = ((m % 3600 : ℕ) : ℤ) from (Int.ofNat_fmod m 3600).symm,
    show (((m % 3600 : ℕ) : ℤ).fdiv 60) = ((m % 3600 / 60 : ℕ) : ℤ) from
      (Int.ofNat_fdiv (m % 3600) 60).symm,
    show ((m : ℤ).fmod 60) = ((m % 60 : ℕ) : ℤ) from (Int.ofNat_fmod m 60).symm,
    fmt02_natCast, fmt02_natCast, fmt02_natCast]

/-! ### Title list construction and de-duplication -/

lemma pyFilterTitles_eq (l : List (Option String)) :
    pyFilterTitles l = l.reduceOption.filter (fun s => !s.isEmpty) := by
  induction l with
  | nil => rfl
  | cons o rest ih =>
    cases o with
    | none => simpa [pyFilterTitles, List.reduceOption] using ih
    | some s =>
      by_cases h : s.isEmpty <;>
        simpa [pyFilterTitles, List.reduceOption, h] using ih

lemma unique_titles_aux (l acc : List String) :
    l.foldl (fun acc t => if t ∈ acc then acc else acc ++ [t]) acc
      = acc ++ keepFirsts (l.filter (fun t => decide (t ∉ acc))) := by
  induction l generalizing acc with
  | nil => simp [keepFirsts]
  | cons a as ih =>
    by_cases ha : a ∈ acc
    · rw [List.foldl_cons, if_pos ha, ih, List.filter_cons, if_neg (by simp [ha])]
    · rw [List.foldl_cons, if_neg ha, ih, List.filter_cons, if_pos (by simp [ha])]
      have hsplit : as.filter (fun t => decide (t ∉ acc ++ [a]))
          = (as.filter (fun t => decide (t ∉ acc))).filter (fun b => b != a) := by
        rw [List.filter_filter]
        refine List.filter_congr fun t _ => ?_
        by_cases h1 : t = a <;> by_cases h2 : t ∈ acc <;> simp [h1, h2]
      rw [hsplit, keepFirsts, List.append_assoc, List.singleton_append]

lemma unique_titles_eq_keepFirsts (l : List String) :
    unique_titles l = keepFirsts l := by
  rw [unique_titles, unique_titles_aux]
  simp

lemma keepFirsts_sublist (l : List String) : List.Sublist (keepFirsts l) l := by
  induction l using keepFirsts.induct with
  | case1 => simp [keepFirsts]
  | case2 a as ih =>
    rw [keepFirsts]
    exact (ih.trans (List.filter_sublist as)).cons₂ a

lemma keepFirsts_nodup (l : List String) : (keepFirsts l).Nodup := by
  induction l using keepFirsts.induct with
  | case1 => simp [keepFirsts]
  | case2 a as ih =>
    rw [keepFirsts]
    refine List.Nodup.cons (fun hmem => ?_) ih
    have := (keepFirsts_sublist _).subset hmem
    simp at this

/-! ### Pipeline characterization -/

lemma replyCount_append (a b : List Action) :
    replyCount (a ++ b) = replyCount a + replyCount b := by
  simp [replyCount, List.filter_append]

lemma tryBody_ok_count (opts : SearchOptions) (env : Env) (out : List Action)
    (h : tryBody opts env = .ok out) : replyCount out = 1 := by
  obtain ⟨dl, sl, tr, mt, del, spm, sadv, svid, stxt, dib⟩ := env
  unfold tryBody adultBranch mediaBranch download_image_file at h
  cases dl <;> cases sl <;> cases del <;> cases spm <;> cases sadv <;>
    cases svid <;> cases stxt <;> dsimp only at h <;>
    (repeat' split at h) <;> (try injection h with h) <;> (try subst h) <;>
    simp_all [replyCount, isReply]

lemma tryBody_error_count (opts : SearchOptions) (env : Env) (log : List Action)
    (ls : Bool) (h : tryBody opts env = .error (log, ls)) : replyCount log = 0 := by
  obtain ⟨dl, sl, tr, mt, del, spm, sadv, svid, stxt, dib⟩ := env
  unfold tryBody adultBranch mediaBranch download_image_file at h
  cases dl <;> cases sl <;> cases del <;> cases spm <;> cases sadv <;>
    cases svid <;> cases stxt <;> dsimp only at h <;>
    (repeat' split at h) <;> (try injection h with h) <;>
    (try injection h with h h2) <;> (try subst h) <;>
    simp_all [replyCount, isReply]

lemma replyCount_pipeline (opts : SearchOptions) (env : Env) :
    replyCount (pipeline opts env) = 1 := by
  unfold pipeline
  cases h : tryBody opts env with
  | ok out => exact tryBody_ok_count opts env out h
  | error p =>
    obtain ⟨log, ls⟩ := p
    rw [replyCount_append, replyCount_append, tryBody_error_count opts env log ls h]
    cases ls && env.deleteInBoundary <;> simp [replyCount, isReply]

lemma pipeline_of_tryBody_ok (opts : SearchOptions) (env : Env) (out : List Action)
    (h : tryBody opts env = .ok out) : pipeline opts env = out := by
  unfold pipeline; rw [h]

lemma pipeline_of_tryBody_error (opts : SearchOptions) (env : Env)
    (log : List Action) (ls : Bool) (h : tryBody opts env = .error (log, ls)) :
    pipeline opts env = log ++
      (if ls && env.deleteInBoundary then [Action.deleteLoading] else [])
      ++ [Action.replyText boundaryErrorText] := by
  unfold pipeline; rw [h]

lemma tryBody_reached (opts : SearchOptions) (env : Env)
    (h1 : env.download = .fetched) (h2 : env.sendLoading = true)
    (h3 : env.deleteLoading = true) :
    tryBody opts env =
      if truthyAdult (submit_search env.trace env.meta).is_adult then
        adultBranch env [.sendAnimation, .deleteLoading]
      else
        mediaBranch opts env (submit_search env.trace env.meta)
          [.sendAnimation, .deleteLoading] := by
  unfold tryBody download_image_file
  rw [h1, h2, h3]

lemma adultBranch_cases (env : Env) (log : List Action) :
    adultBranch env log = .ok (log ++ [.pm pmAdultText]) ∨
    adultBranch env log = .ok (log ++ [.replyText advisoryText]) ∨
    adultBranch env log = .error (log, true) := by
  unfold adultBranch
  cases env.sendPM <;> cases env.sendAdvisory <;> simp

lemma mediaBranch_cases (opts : SearchOptions) (env : Env) (r : SearchReply)
    (log : List Action) :
    (truthyVideo r.video = true ∧ opts.skip = false ∧
      (mediaBranch opts env r log = .ok (log ++ [.replyVideo
          (if opts.mute then r.video.getD "" ++ "&mute" else r.video.getD "") r.text]) ∨
       mediaBranch opts env r log = .error (log, true))) ∨
    ((truthyVideo r.video = false ∨ opts.skip = true) ∧
      (mediaBranch opts env r log = .ok (log ++ [.replyText r.text]) ∨
       mediaBranch opts env r log = .error (log, true))) := by
  unfold mediaBranch
  cases hv : truthyVideo r.video <;> cases hs : opts.skip <;>
    cases env.sendVideo <;> cases env.sendText <;> simp [hv, hs]

lemma tryBody_cases (opts : SearchOptions) (env : Env) :
    tryBody opts env = .ok [.replyText helpText] ∨
    tryBody opts env = .error ([], false) ∨
    tryBody opts env = .error ([.sendAnimation], true) ∨
    (truthyAdult (submit_search env.trace env.meta).is_adult = true ∧
      tryBody opts env = adultBranch env [.sendAnimation, .deleteLoading]) ∨
    (truthyAdult (submit_search env.trace env.meta).is_adult = false ∧
      tryBody opts env
        = mediaBranch opts env (submit_search env.trace env.meta)
            [.sendAnimation, .deleteLoading]) := by
  unfold tryBody download_image_file
  cases env.download <;> cases env.sendLoading <;> cases env.deleteLoading <;>
    cases hA : truthyAdult (submit_search env.trace env.meta).is_adult <;> simp [hA]

lemma pipeline_mem (opts : SearchOptions) (env : Env) (a : Action)
    (ha : a ∈ pipeline opts env) :
    a = .sendAnimation ∨ a = .deleteLoading ∨ a = .replyText helpText ∨
    a = .replyText boundaryErrorText ∨
    (truthyAdult (submit_search env.trace env.meta).is_adult = true ∧
      (a = .pm pmAdultText ∨ a = .replyText advisoryText)) ∨
    (truthyAdult (submit_search env.trace env.meta).is_adult = false ∧
      truthyVideo (submit_search env.trace env.meta).video = true ∧ opts.skip = false ∧
      a = .replyVideo
        (if opts.mute then (submit_search env.trace env.meta).video.getD "" ++ "&mute"
         else (submit_search env.trace env.meta).video.getD "")
        (submit_search env.trace env.meta).text) ∨
    (truthyAdult (submit_search env.trace env.meta).is_adult = false ∧
      (truthyVideo (submit_search env.trace env.meta).video = false ∨ opts.skip = true) ∧
      a = .replyText (submit_search env.trace env.meta).text) := by
  rcases tryBody_cases opts env with h | h | h | ⟨hA, h⟩ | ⟨hA, h⟩
  · rw [pipeline_of_tryBody_ok _ _ _ h] at ha
    simp at ha; tauto
  · rw [pipeline_of_tryBody_error _ _ _ _ h] at ha
    simp at ha; tauto
  · rw [pipeline_of_tryBody_error _ _ _ _ h] at ha
    cases hd : env.deleteInBoundary <;> simp [hd] at ha <;> tauto
  · rcases adultBranch_cases env [.sendAnimation, .deleteLoading] with h2 | h2 | h2
    · rw [pipeline_of_tryBody_ok _ _ _ (h.trans h2)] at ha
      simp at ha; tauto
    · rw [pipeline_of_tryBody_ok _ _ _ (h.trans h2)] at ha
      simp at ha; tauto
    · rw [pipeline_of_tryBody_error _ _ _ _ (h.trans h2)] at ha
      cases hd : env.deleteInBoundary <;> simp [hd] at ha <;> tauto
  · rcases mediaBranch_cases opts env (submit_search env.trace env.meta)
        [.sendAnimation, .deleteLoading] with ⟨hv, hs, h2 | h2⟩ | ⟨hvs, h2 | h2⟩
    · rw [pipeline_of_tryBody_ok _ _ _ (h.trans h2)] at ha
      simp at ha; tauto
    · rw [pipeline_of_tryBody_error _ _ _ _ (h.trans h2)] at ha
      cases hd : env.deleteInBoundary <;> simp [hd] at ha <;> tauto
    · rw [pipeline_of_tryBody_ok _ _ _ (h.trans h2)] at ha
      simp at ha; tauto
    · rw [pipeline_of_tryBody_error _ _ _ _ (h.trans h2)] at ha
      cases hd : env.deleteInBoundary <;> simp [hd] at ha <;> tauto

lemma pipeline_adult_pm (opts : SearchOptions) (env : Env)
    (h1 : env.download = .fetched) (h2 : env.sendLoading = true)
    (h3 : env.deleteLoading = true)
    (hA : truthyAdult (submit_search env.trace env.meta).is_adult = true)
    (hPM : env.sendPM = true) :
    pipeline opts env = [.sendAnimation, .deleteLoading, .pm pmAdultText] := by
  apply pipeline_of_tryBody_ok
  rw [tryBody_reached opts env h1 h2 h3, if_pos hA]
  unfold adultBranch
  rw [hPM]
  rfl

lemma pipeline_adult_advisory (opts : SearchOptions) (env : Env)
    (h1 : env.download = .fetched) (h2 : env.sendLoading = true)
    (h3 : env.deleteLoading = true)
    (hA : truthyAdult (submit_search env.trace env.meta).is_adult = true)
    (hPM : env.sendPM = false) (hAdv : env.sendAdvisory = true) :
    pipeline opts env = [.sendAnimation, .deleteLoading, .replyText advisoryText] := by
  apply pipeline_of_tryBody_ok
  rw [tryBody_reached opts env h1 h2 h3, if_pos hA]
  unfold adultBranch
  rw [hPM, hAdv]
  rfl

lemma pipeline_media_video (opts : SearchOptions) (env : Env)
    (h1 : env.download = .fetched) (h2 : env.sendLoading = true)
    (h3 : env.deleteLoading = true)
    (hA : truthyAdult (submit_search env.trace env.meta).is_adult = false)
    (hv : truthyVideo (submit_search env.trace env.meta).video = true)
    (hs : opts.skip = false) (hsend : env.sendVideo = true) :
    pipeline opts env = [.sendAnimation, .deleteLoading,
      .replyVideo
        (if opts.mute then (submit_search env.trace env.meta).video.getD "" ++ "&mute"
         else (submit_search env.trace env.meta).video.getD "")
        (submit_search env.trace env.meta).text] := by
  apply pipeline_of_tryBody_ok
  rw [tryBody_reached opts env h1 h2 h3, if_neg (by simp [hA])]
  unfold mediaBranch
  rw [hv, hs, hsend]
  simp

lemma pipeline_media_text (opts : SearchOptions) (env : Env)
    (h1 : env.download = .fetched) (h2 : env.sendLoading = true)
    (h3 : env.deleteLoading = true)
    (hA : truthyAdult (submit_search env.trace env.meta).is_adult = false)
    (hvs : truthyVideo (submit_search env.trace env.meta).video = false ∨ opts.skip = true)
    (hsend : env.sendText = true) :
    pipeline opts env = [.sendAnimation, .deleteLoading,
      .replyText (submit_search env.trace env.meta).text] := by
  apply pipeline_of_tryBody_ok
  rw [tryBody_reached opts env h1 h2 h3, if_neg (by simp [hA])]
  unfold mediaBranch
  rcases hvs with hv | hs
  · rw [hv, hsend]
    simp
  · rw [hs, hsend]
    cases truthyVideo (submit_search env.trace env.meta).video <;> simp

/-! ### Formatter and search-reply facts -/

lemma resultText_head (r : MatchResult) (i : AnilistInfo) :
    (resultText r i).data.head? = some '🎯' := rfl

lemma resultText_ne_fixed (r : MatchResult) (i : AnilistInfo) :
    resultText r i ≠ helpText ∧ resultText r i ≠ advisoryText ∧
    resultText r i ≠ boundaryErrorText ∧ resultText r i ≠ "" := by
  refine ⟨?_, ?_, ?_, ?_⟩ <;>
    · intro h
      have h2 := congrArg (fun s => s.data.head?) h
      rw [show (fun (s : String) => s.data.head?) (resultText r i)
          = (resultText r i).data.head? from rfl, resultText_head] at h2
      exact absurd h2 (by decide)

lemma append_size_not_empty (s : String) : (s ++ "&size=l").isEmpty = false := by
  rw [Bool.eq_false_iff, Ne, String.isEmpty_iff]
  intro h
  have h2 := congrArg String.length h
  have h7 : ("&size=l" : String).length = 7 := rfl
  have h0 : ("" : String).length = 0 := rfl
  rw [String.length_append, h7, h0] at h2
  omega

lemma submit_search_adult_success (t : TraceResp) (m : MetaResp)
    (hA : truthyAdult (submit_search t m).is_adult = true) :
    ∃ r rs info, t = .ok (r :: rs) ∧ get_anilist_info m = some info ∧
      submit_search t m
        = ⟨resultText r info, some (r.video ++ "&size=l"), some info.isAdult⟩ := by
  cases t with
  | raisedHttp => simp [submit_search, truthyAdult] at hA
  | raisedOther => simp [submit_search, truthyAdult] at hA
  | ok results =>
    cases results with
    | nil => simp [submit_search, truthyAdult] at hA
    | cons r rs =>
      cases hm : get_anilist_info m with
      | none => simp [submit_search, hm, truthyAdult] at hA
      | some info => exact ⟨r, rs, info, rfl, rfl, by simp [submit_search, hm]⟩

lemma submit_search_not_success (t : TraceResp) (m : MetaResp)
    (h : ¬ successOutcome t m) :
    (submit_search t m).video = none ∧ (submit_search t m).is_adult = none ∧
    ((submit_search t m).text = apiErrorText ∨
     (submit_search t m).text = unexpectedErrorText ∨
     (submit_search t m).text = noResultsText ∨
     (submit_search t m).text = failedDetailsText) := by
  cases t with
  | raisedHttp => simp [submit_search]
  | raisedOther => simp [submit_search]
  | ok results =>
    cases results with
    | nil => simp [submit_search]
    | cons r rs =>
      cases hm : get_anilist_info m with
      | none => simp [submit_search, hm]
      | some info => exact absurd ⟨r, rs, info, rfl, hm⟩ h

lemma submit_search_text_ne_empty (t : TraceResp) (m : MetaResp) :
    (submit_search t m).text ≠ "" := by
  cases t with
  | raisedHttp => exact (by decide : apiErrorText ≠ "")
  | raisedOther => exact (by decide : unexpectedErrorText ≠ "")
  | ok results =>
    cases results with
    | nil => exact (by decide : noResultsText ≠ "")
    | cons r rs =>
      cases hm : get_anilist_info m with
      | none => simpa [submit_search, hm] using (by decide : failedDetailsText ≠ "")
      | some info =>
        simpa [submit_search, hm] using (resultText_ne_fixed r info).2.2.2

lemma fmt1f_hundred : fmt1f ((1 : ℚ) * 100) = "100.0" := by
  have h : roundHalfEven ((1 : ℚ) * 100 * 10) = 1000 := by
    unfold roundHalfEven
    norm_num
  unfold fmt1f
  rw [h]
  decide

lemma count_backslash_append (a b : String) :
    (a ++ b).data.count '\\' = a.data.count '\\' + b.data.count '\\' := by
  rw [String.data_append, List.count_append]

lemma resultText_count_backslash (t : String) (ht : t.isEmpty = false) :
    (resultText ⟨1, some 5, 725, 1, "v"⟩
        ⟨⟨some t, none, none⟩, false, []⟩).data.count '\\'
      = t.data.count '\\' := by
  have huniq : unique_titles (pyFilterTitles [some t, none, none]) = [t] := by
    simp [pyFilterTitles, unique_titles, ht]
  unfold resultText
  dsimp only
  rw [huniq]
  simp only [List.map_cons, List.map_nil]
  rw [show String.intercalate "\n" ["• `" ++ t ++ "`"] = "• `" ++ t ++ "`" from rfl,
    fmt1f_hundred,
    show format_time 725 = "00:12:05" from by decide,
    show episodeText (some 5) = "5" from by decide,
    show genresText ([] : List String) = "N/A" from rfl]
  simp only [count_backslash_append]
  rw [show ("🎯 *Anime Found!*\n\n" : String).data.count '\\' = 0 from by decide,
    show ("*Titles:*\n" : String).data.count '\\' = 0 from by decide,
    show ("• `" : String).data.count '\\' = 0 from by decide,
    show ("`" : String).data.count '\\' = 0 from by decide,
    show ("\n\n" : String).data.count '\\' = 0 from by decide,
    show ("*Episode:* `" : String).data.count '\\' = 0 from by decide,
    show ("5" : String).data.count '\\' = 0 from by decide,
    show ("`\n" : String).data.count '\\' = 0 from by decide,
    show ("*Timestamp:* `" : String).data.count '\\' = 0 from by decide,
    show ("00:12:05" : String).data.count '\\' = 0 from by decide,
    show ("*Similarity:* `" : String).data.count '\\' = 0 from by decide,
    show ("100.0" : String).data.count '\\' = 0 from by decide,
    show ("%`\n\n" : String).data.count '\\' = 0 from by decide,
    show ("*Genres:* `" : String).data.count '\\' = 0 from by decide,
    show ("N/A" : String).data.count '\\' = 0 from by decide]
  omega

lemma resultTextEscaped_count_backslash (t : String) (ht : t.isEmpty = false) :
    (resultTextEscaped ⟨1, some 5, 725, 1, "v"⟩
        ⟨⟨some t, none, none⟩, false, []⟩).data.count '\\'
      = (escapeSpec t).data.count '\\' := by
  have huniq : unique_titles (pyFilterTitles [some t, none, none]) = [t] := by
    simp [pyFilterTitles, unique_titles, ht]
  unfold resultTextEscaped
  dsimp only
  rw [huniq]
  simp only [List.map_cons, List.map_nil]
  rw [show String.intercalate "\n" ["• `" ++ escapeSpec t ++ "`"]
      = "• `" ++ escapeSpec t ++ "`" from rfl,
    fmt1f_hundred,
    show format_time 725 = "00:12:05" from by decide,
    show episodeText (some 5) = "5" from by decide,
    show genresText ([] : List String) = "N/A" from rfl]
  simp only [count_backslash_append]
  rw [show ("🎯 *Anime Found!*\n\n" : String).data.count '\\' = 0 from by decide,
    show ("*Titles:*\n" : String).data.count '\\' = 0 from by decide,
    show ("• `" : String).data.count '\\' = 0 from by decide,
    show ("`" : String).data.count '\\' = 0 from by decide,
    show ("\n\n" : String).data.count '\\' = 0 from by decide,
    show ("*Episode:* `" : String).data.count '\\' = 0 from by decide,
    show ("5" : String).data.count '\\' = 0 from by decide,
    show ("`\n" : String).data.count '\\' = 0 from by decide,
    show ("*Timestamp:* `" : String).data.count '\\' = 0 from by decide,
    show ("00:12:05" : String).data.count '\\' = 0 from by decide,
    show ("*Similarity:* `" : String).data.count '\\' = 0 from by decide,
    show ("100.0" : String).data.count '\\' = 0 from by decide,
    show ("%`\n\n" : String).data.count '\\' = 0 from by decide,
    show ("*Genres:* `" : String).data.count '\\' = 0 from by decide,
    show (escapeSpec "N/A").data.count '\\' = 0 from by decide]
  omega

/-! ### Claims -/

/-- Claim C1, counterexample: an exception raised while downloading the image
(`download = .raised`) is swallowed inside `download_image_file`, so
`handle_message` sends the usage-help reply, not the generic boundary error
reply — refuting the claim that any exception in the listed steps is caught at
the pipeline boundary and answered with the generic error reply. -/
theorem C1_counterexample :
    handle_message none 0
        ⟨.raised, true, .ok [], .raised, true, true, true, true, true, true⟩
      = [Action.replyText helpText] ∧
    Action.replyText boundaryErrorText ∉
      handle_message none 0
        ⟨.raised, true, .ok [], .raised, true, true, true, true, true, true⟩ ∧
    helpText ≠ boundaryErrorText := by
  refine ⟨rfl, ?_, ?_⟩ <;> decide

/-- Claim C1 (amended): no exception escapes `handle_message` and the user
always receives exactly one reply; an exception during the image download is
handled inside the download step and yields the usage-help reply, while an
exception raised unhandled inside the `try` body (e.g. while sending a reply)
reaches the boundary handler, which has sent nothing user-visible before and
emits exactly one generic error reply. -/
theorem C1_error_boundary : ∀ (c : Option String) (u : ℤ) (env : Env),
    replyCount (handle_message c u env) = 1 ∧
    (env.download = .raised → handle_message c u env = [Action.replyText helpText]) ∧
    (∀ log ls, tryBody (optsOfCaption c u) env = .error (log, ls) →
      replyCount log = 0 ∧
      handle_message c u env = log ++
        (if ls && env.deleteInBoundary then [Action.deleteLoading] else [])
        ++ [Action.replyText boundaryErrorText]) := by
  intro c u env
  refine ⟨replyCount_pipeline _ env, fun hd => ?_,
    fun log ls h => ⟨tryBody_error_count _ env log ls h,
      pipeline_of_tryBody_error _ env log ls h⟩⟩
  show pipeline (optsOfCaption c u) env = _
  apply pipeline_of_tryBody_ok
  unfold tryBody download_image_file
  rw [hd]

/-- Witness for C1: a send failure in the text branch reaches the boundary,
which deletes the loading indicator and emits the single generic error reply. -/
theorem C1_error_boundary_witness :
    replyCount (handle_message none 0
        ⟨.fetched, true, .ok [], .raised, true, false, false, false, false, true⟩) = 1 ∧
    handle_message none 0
        ⟨.fetched, true, .ok [], .raised, true, false, false, false, false, true⟩
      = [Action.sendAnimation, Action.deleteLoading] ++
        (if true && true then [Action.deleteLoading] else [])
        ++ [Action.replyText boundaryErrorText] :=
  ⟨(C1_error_boundary none 0
      ⟨.fetched, true, .ok [], .raised, true, false, false, false, false, true⟩).1,
   ((C1_error_boundary none 0
      ⟨.fetched, true, .ok [], .raised, true, false, false, false, false, true⟩).2.2
     [Action.sendAnimation, Action.deleteLoading] true rfl).2⟩

/-- Claim C2: on an adult-flagged result the pipeline never sends the
formatted text or any preview video into the chat; when the sends succeed it
sends exactly the private advisory, or the sanitized in-chat notice if the
private message fails, and terminates. -/
theorem C2_adult_branch : ∀ (c : Option String) (u : ℤ) (env : Env),
    truthyAdult (submit_search env.trace env.meta).is_adult = true →
    (∀ url cap, Action.replyVideo url cap ∉ handle_message c u env) ∧
    Action.replyText (submit_search env.trace env.meta).text ∉ handle_message c u env ∧
    (env.download = .fetched → env.sendLoading = true → env.deleteLoading = true →
      (env.sendPM = true →
        handle_message c u env
          = [Action.sendAnimation, Action.deleteLoading, Action.pm pmAdultText]) ∧
      (env.sendPM = false → env.sendAdvisory = true →
        handle_message c u env
          = [Action.sendAnimation, Action.deleteLoading, Action.replyText advisoryText])) := by
  intro c u env hA
  obtain ⟨r, rs, info, ht, hm, heq⟩ := submit_search_adult_success env.trace env.meta hA
  refine ⟨?_, ?_, fun h1 h2 h3 =>
    ⟨fun hPM => pipeline_adult_pm _ env h1 h2 h3 hA hPM,
     fun hPM hAdv => pipeline_adult_advisory _ env h1 h2 h3 hA hPM hAdv⟩⟩
  · intro url cap hmem
    rcases pipeline_mem (optsOfCaption c u) env _ hmem
      with h|h|h|h|⟨_,h|h⟩|⟨hA2,_⟩|⟨hA2,_,h⟩ <;> simp_all
  · intro hmem
    rcases pipeline_mem (optsOfCaption c u) env _ hmem
      with h|h|h|h|⟨_,h|h⟩|⟨hA2,_⟩|⟨hA2,_,h⟩
    · simp at h
    · simp at h
    · rw [heq] at h
      simp only [Action.replyText.injEq] at h
      exact absurd h (resultText_ne_fixed r info).1
    · rw [heq] at h
      simp only [Action.replyText.injEq] at h
      exact absurd h (resultText_ne_fixed r info).2.2.1
    · simp at h
    · rw [heq] at h
      simp only [Action.replyText.injEq] at h
      exact absurd h (resultText_ne_fixed r info).2.1
    · rw [hA] at hA2
      simp at hA2
    · rw [hA] at hA2
      simp at hA2

/-- Witness for C2: adult result, private message succeeds — the trace is the
loading indicator, its deletion, and the private advisory only. -/
theorem C2_adult_branch_witness :
    handle_message none 0
        ⟨.fetched, true, .ok [⟨1, some 5, 725, 1, "v"⟩],
         .ok ⟨⟨some "X", none, none⟩, true, []⟩, true, true, true, true, true, true⟩
      = [Action.sendAnimation, Action.deleteLoading, Action.pm pmAdultText] :=
  ((C2_adult_branch none 0
      ⟨.fetched, true, .ok [⟨1, some 5, 725, 1, "v"⟩],
       .ok ⟨⟨some "X", none, none⟩, true, []⟩, true, true, true, true, true, true⟩
      rfl).2.2 rfl rfl rfl).1 rfl

/-- Claim C3: an empty provider result list yields the "no results" dict,
independently of the metadata oracle (`get_anilist_info` is not consulted),
and the pipeline then sends exactly one reply carrying that message. -/
theorem C3_no_results : ∀ (m m2 : MetaResp) (c : Option String) (u : ℤ) (env : Env),
    submit_search (.ok []) m = submit_search (.ok []) m2 ∧
    submit_search (.ok []) m = ⟨noResultsText, none, none⟩ ∧
    (env.trace = .ok [] → env.download = .fetched → env.sendLoading = true →
      env.deleteLoading = true → env.sendText = true →
      handle_message c u env
        = [Action.sendAnimation, Action.deleteLoading, Action.replyText noResultsText] ∧
      replyCount (handle_message c u env) = 1) := by
  intro m m2 c u env
  refine ⟨rfl, rfl, fun ht h1 h2 h3 hs => ⟨?_, replyCount_pipeline _ env⟩⟩
  have hA : truthyAdult (submit_search env.trace env.meta).is_adult = false := by
    rw [ht]
    rfl
  have hv : truthyVideo (submit_search env.trace env.meta).video = false := by
    rw [ht]
    rfl
  have h := pipeline_media_text (optsOfCaption c u) env h1 h2 h3 hA (Or.inl hv) hs
  rw [ht] at h
  exact h

/-- Witness for C3 at a concrete environment with an empty result list. -/
theorem C3_no_results_witness :
    handle_message none 0
        ⟨.fetched, true, .ok [], .raised, true, true, true, true, true, true⟩
      = [Action.sendAnimation, Action.deleteLoading, Action.replyText noResultsText] ∧
    replyCount (handle_message none 0
        ⟨.fetched, true, .ok [], .raised, true, true, true, true, true, true⟩) = 1 :=
  (C3_no_results .raised .okEmpty none 0
    ⟨.fetched, true, .ok [], .raised, true, true, true, true, true, true⟩).2.2
    rfl rfl rfl rfl rfl

/-- Claim C4, counterexample: with the title `a\b` the rendered reply text
contains the markup escape character exactly once — unescaped, exactly as in
the title — and differs from the variant formatter that escapes free-text
fields, refuting the claim that the formatter escapes the escape character. -/
theorem C4_counterexample :
    (resultText ⟨1, some 5, 725, 1, "v"⟩
        ⟨⟨some "a\\b", none, none⟩, false, []⟩).data.count '\\' = 1 ∧
    ("a\\b" : String).data.count '\\' = 1 ∧
    resultText ⟨1, some 5, 725, 1, "v"⟩ ⟨⟨some "a\\b", none, none⟩, false, []⟩
      ≠ resultTextEscaped ⟨1, some 5, 725, 1, "v"⟩ ⟨⟨some "a\\b", none, none⟩, false, []⟩ := by
  refine ⟨?_, by decide, ?_⟩
  · rw [resultText_count_backslash "a\\b" rfl]
    decide
  · intro heq
    have h2 : (resultText ⟨1, some 5, 725, 1, "v"⟩
          ⟨⟨some "a\\b", none, none⟩, false, []⟩).data.count '\\'
        = (resultTextEscaped ⟨1, some 5, 725, 1, "v"⟩
          ⟨⟨some "a\\b", none, none⟩, false, []⟩).data.count '\\' := by
      rw [heq]
    rw [resultText_count_backslash "a\\b" rfl,
      resultTextEscaped_count_backslash "a\\b" rfl] at h2
    exact absurd h2 (by decide)

/-- Claim C4 (amended): the result formatter performs no escaping — a
free-text title is placed verbatim in the reply text, so the markup escape
character occurs in the output exactly as often as in the title. -/
theorem C4_no_escaping : ∀ t : String, t.isEmpty = false →
    (resultText ⟨1, some 5, 725, 1, "v"⟩
        ⟨⟨some t, none, none⟩, false, []⟩).data.count '\\'
      = t.data.count '\\' :=
  resultText_count_backslash

/-- Witness for C4 at the title `a\b`. -/
theorem C4_no_escaping_witness :
    (resultText ⟨1, some 5, 725, 1, "v"⟩
        ⟨⟨some "a\\b", none, none⟩, false, []⟩).data.count '\\'
      = ("a\\b" : String).data.count '\\' :=
  C4_no_escaping "a\\b" rfl

/-- Claim C5: when the `skip` flag is derived from the caption, the pipeline
never sends a video reply, and on the success path it sends the text-only
reply with the formatted caption even though a preview URL exists. -/
theorem C5_skip_preview : ∀ (c : Option String) (u : ℤ) (env : Env),
    (optsOfCaption c u).skip = true →
    (∀ url cap, Action.replyVideo url cap ∉ handle_message c u env) ∧
    (env.download = .fetched → env.sendLoading = true → env.deleteLoading = true →
      truthyAdult (submit_search env.trace env.meta).is_adult = false →
      env.sendText = true →
      handle_message c u env
        = [Action.sendAnimation, Action.deleteLoading,
           Action.replyText (submit_search env.trace env.meta).text]) := by
  intro c u env hskip
  refine ⟨?_, fun h1 h2 h3 hA hs =>
    pipeline_media_text _ env h1 h2 h3 hA (Or.inr hskip) hs⟩
  intro url cap hmem
  rcases pipeline_mem (optsOfCaption c u) env _ hmem
    with h|h|h|h|⟨_,h|h⟩|⟨_,_,hS,_⟩|⟨_,_,h⟩ <;> simp_all

/-- Witness for C5: caption `skip`, valid match with a preview URL — the
reply is text-only. -/
theorem C5_skip_preview_witness :
    handle_message (some "skip") 0
        ⟨.fetched, true, .ok [⟨1, some 12, 725, 1, "http://x/v.mp4"⟩],
         .ok ⟨⟨none, some "Foo", none⟩, false, ["Action", "Drama"]⟩,
         true, true, true, true, true, true⟩
      = [Action.sendAnimation, Action.deleteLoading,
         Action.replyText (submit_search
           (.ok [⟨1, some 12, 725, 1, "http://x/v.mp4"⟩])
           (.ok ⟨⟨none, some "Foo", none⟩, false, ["Action", "Drama"]⟩)).text] :=
  (C5_skip_preview (some "skip") 0
    ⟨.fetched, true, .ok [⟨1, some 12, 725, 1, "http://x/v.mp4"⟩],
     .ok ⟨⟨none, some "Foo", none⟩, false, ["Action", "Drama"]⟩,
     true, true, true, true, true, true⟩ rfl).2 rfl rfl rfl rfl rfl

/-- Claim C6: `format_time` renders the zero-padded `HH:MM:SS` of the
truncation of a non-negative input; in particular at 0, 3661 and 59.9. -/
theorem C6_format_time :
    (∀ s : ℚ, 0 ≤ s →
      format_time s = pad2 (⌊s⌋.toNat / 3600) ++ ":" ++ pad2 (⌊s⌋.toNat % 3600 / 60)
        ++ ":" ++ pad2 (⌊s⌋.toNat % 60)) ∧
    format_time 0 = "00:00:00" ∧ format_time 3661 = "01:01:01" ∧
    format_time (599/10 : ℚ) = "00:00:59" := by
  refine ⟨format_time_spec, by decide, by decide, ?_⟩
  rw [format_time_spec (599/10 : ℚ) (by norm_num),
    show ⌊(599/10 : ℚ)⌋ = 59 from by norm_num]
  decide

/-- Witness for C6 at the input 3661. -/
theorem C6_format_time_witness :
    format_time 3661 = pad2 (⌊(3661 : ℚ)⌋.toNat / 3600) ++ ":" ++
      pad2 (⌊(3661 : ℚ)⌋.toNat % 3600 / 60) ++ ":" ++ pad2 (⌊(3661 : ℚ)⌋.toNat % 60) :=
  C6_format_time.1 3661 (by decide)

/-- Claim C7: the title list is the truthy filter of
`[native, romaji, english]` in that order, and `unique_titles` keeps exactly
the first occurrence of each title in order (it equals `keepFirsts`, is
duplicate-free, and is an order-preserving sublist); `["A","B","A"]` yields
`["A","B"]`. -/
theorem C7_title_dedup :
    (∀ l, unique_titles l = keepFirsts l) ∧
    (∀ l, (unique_titles l).Nodup ∧ List.Sublist (unique_titles l) l) ∧
    (∀ l, pyFilterTitles l = l.reduceOption.filter (fun s => !s.isEmpty)) ∧
    unique_titles ["A", "B", "A"] = ["A", "B"] := by
  refine ⟨unique_titles_eq_keepFirsts, fun l => ?_, pyFilterTitles_eq, by decide⟩
  rw [unique_titles_eq_keepFirsts]
  exact ⟨keepFirsts_nodup l, keepFirsts_sublist l⟩

/-- Claim C8: on the video path the reply URL is the provider clip URL with
`&size=l` appended, and `&mute` appended exactly when the caption-derived
mute flag is set. -/
theorem C8_video_url : ∀ (c : Option String) (u : ℤ) (env : Env) (r : MatchResult)
    (rs : List MatchResult) (info : AnilistInfo),
    env.trace = .ok (r :: rs) → env.meta = .ok info → info.isAdult = false →
    (optsOfCaption c u).skip = false →
    env.download = .fetched → env.sendLoading = true → env.deleteLoading = true →
    env.sendVideo = true →
    handle_message c u env = [Action.sendAnimation, Action.deleteLoading,
      Action.replyVideo
        (r.video ++ "&size=l" ++ (if (optsOfCaption c u).mute then "&mute" else ""))
        (resultText r info)] := by
  intro c u env r rs info ht hm hAd hskip h1 h2 h3 hsend
  have hsub : submit_search env.trace env.meta
      = ⟨resultText r info, some (r.video ++ "&size=l"), some info.isAdult⟩ := by
    rw [ht, hm]
    rfl
  have hA : truthyAdult (submit_search env.trace env.meta).is_adult = false := by
    rw [hsub]
    simp [truthyAdult, hAd]
  have hv : truthyVideo (submit_search env.trace env.meta).video = true := by
    rw [hsub]
    simp [truthyVideo, append_size_not_empty]
  have h := pipeline_media_video (optsOfCaption c u) env h1 h2 h3 hA hv hskip hsend
  rw [hsub] at h
  cases hmu : (optsOfCaption c u).mute with
  | true => simpa [hmu] using h
  | false => simpa [hmu] using h

/-- Witness for C8: caption `mute`, clip URL `http://x/v.mp4` — the reply
video URL is `http://x/v.mp4&size=l&mute`. -/
theorem C8_video_url_witness :
    handle_message (some "mute") 7
        ⟨.fetched, true, .ok [⟨1, some 12, 725, 1, "http://x/v.mp4"⟩],
         .ok ⟨⟨none, some "Foo", none⟩, false, ["Action", "Drama"]⟩,
         true, true, true, true, true, true⟩
      = [Action.sendAnimation, Action.deleteLoading,
         Action.replyVideo
           ("http://x/v.mp4" ++ "&size=l" ++
             (if (optsOfCaption (some "mute") 7).mute then "&mute" else ""))
           (resultText ⟨1, some 12, 725, 1, "http://x/v.mp4"⟩
             ⟨⟨none, some "Foo", none⟩, false, ["Action", "Drama"]⟩)] ∧
    ("http://x/v.mp4" ++ "&size=l" ++
       (if (optsOfCaption (some "mute") 7).mute then "&mute" else ""))
      = "http://x/v.mp4&size=l&mute" :=
  ⟨C8_video_url (some "mute") 7
      ⟨.fetched, true, .ok [⟨1, some 12, 725, 1, "http://x/v.mp4"⟩],
       .ok ⟨⟨none, some "Foo", none⟩, false, ["Action", "Drama"]⟩,
       true, true, true, true, true, true⟩
      ⟨1, some 12, 725, 1, "http://x/v.mp4"⟩ []
      ⟨⟨none, some "Foo", none⟩, false, ["Action", "Drama"]⟩
      rfl rfl rfl rfl rfl rfl rfl rfl, by decide⟩

/-- Claim C9: a failing AniList request is converted to the empty result
inside `get_anilist_info`, `submit_search` turns it into the
"failed to fetch details" dict, and the pipeline sends exactly one reply
carrying that message. -/
theorem C9_metadata_failure : ∀ (c : Option String) (u : ℤ) (env : Env)
    (r : MatchResult) (rs : List MatchResult),
    get_anilist_info .raised = none ∧
    submit_search (.ok (r :: rs)) .raised = ⟨failedDetailsText, none, none⟩ ∧
    (env.meta = .raised → env.trace = .ok (r :: rs) → env.download = .fetched →
      env.sendLoading = true → env.deleteLoading = true → env.sendText = true →
      handle_message c u env
        = [Action.sendAnimation, Action.deleteLoading, Action.replyText failedDetailsText] ∧
      replyCount (handle_message c u env) = 1) := by
  intro c u env r rs
  refine ⟨rfl, rfl, fun hm ht h1 h2 h3 hs => ⟨?_, replyCount_pipeline _ env⟩⟩
  have hA : truthyAdult (submit_search env.trace env.meta).is_adult = false := by
    rw [ht, hm]
    rfl
  have hv : truthyVideo (submit_search env.trace env.meta).video = false := by
    rw [ht, hm]
    rfl
  have h := pipeline_media_text (optsOfCaption c u) env h1 h2 h3 hA (Or.inl hv) hs
  rw [ht, hm] at h
  exact h

/-- Witness for C9 at a concrete environment whose metadata call raises. -/
theorem C9_metadata_failure_witness :
    handle_message none 0
        ⟨.fetched, true, .ok [⟨1, some 5, 725, 1, "v"⟩], .raised,
         true, true, true, true, true, true⟩
      = [Action.sendAnimation, Action.deleteLoading, Action.replyText failedDetailsText] ∧
    replyCount (handle_message none 0
        ⟨.fetched, true, .ok [⟨1, some 5, 725, 1, "v"⟩], .raised,
         true, true, true, true, true, true⟩) = 1 :=
  (C9_metadata_failure none 0
    ⟨.fetched, true, .ok [⟨1, some 5, 725, 1, "v"⟩], .raised,
     true, true, true, true, true, true⟩
    ⟨1, some 5, 725, 1, "v"⟩ []).2.2 rfl rfl rfl rfl rfl rfl

/-- Claim C10: `submit_search` always returns a dict with a non-empty text
and never raises (it is total by construction); on every non-success outcome
the dict has neither a video nor an is_adult key, so the pipeline never takes
the adult or video branch: its terminal reply is text-only. -/
theorem C10_nonsuccess_text_only : ∀ (t : TraceResp) (m : MetaResp)
    (c : Option String) (u : ℤ) (env : Env),
    (submit_search t m).text ≠ "" ∧
    (¬ successOutcome t m →
      (submit_search t m).video = none ∧ (submit_search t m).is_adult = none) ∧
    (¬ successOutcome env.trace env.meta →
      (∀ url cap, Action.replyVideo url cap ∉ handle_message c u env) ∧
      Action.pm pmAdultText ∉ handle_message c u env ∧
      Action.replyText advisoryText ∉ handle_message c u env) := by
  intro t m c u env
  refine ⟨submit_search_text_ne_empty t m,
    fun h => ⟨(submit_search_not_success t m h).1, (submit_search_not_success t m h).2.1⟩,
    fun h => ?_⟩
  obtain ⟨hvid, hadult, htext⟩ := submit_search_not_success env.trace env.meta h
  have hA : truthyAdult (submit_search env.trace env.meta).is_adult = false := by
    rw [hadult]
    rfl
  have hV : truthyVideo (submit_search env.trace env.meta).video = false := by
    rw [hvid]
    rfl
  refine ⟨?_, ?_, ?_⟩
  · intro url cap hmem
    rcases pipeline_mem (optsOfCaption c u) env _ hmem
      with h'|h'|h'|h'|⟨hA2,_⟩|⟨_,hV2,_⟩|⟨_,_,h'⟩ <;> simp_all
  · intro hmem
    rcases pipeline_mem (optsOfCaption c u) env _ hmem
      with h'|h'|h'|h'|⟨hA2,h'|h'⟩|⟨_,hV2,_⟩|⟨_,_,h'⟩ <;> simp_all
  · intro hmem
    rcases pipeline_mem (optsOfCaption c u) env _ hmem
      with h'|h'|h'|h'|⟨hA2,h'|h'⟩|⟨_,hV2,_⟩|⟨_,_,h'⟩
    · simp at h'
    · simp at h'
    · simp only [Action.replyText.injEq] at h'
      exact absurd h' (by decide)
    · simp only [Action.replyText.injEq] at h'
      exact absurd h' (by decide)
    · rw [hA] at hA2
      simp at hA2
    · rw [hA] at hA2
      simp at hA2
    · rw [hV] at hV2
      simp at hV2
    · simp only [Action.replyText.injEq] at h'
      rcases htext with ht4|ht4|ht4|ht4 <;>
        (rw [ht4] at h'; exact absurd h' (by decide))

/-- Witness for C10 at a failing provider call. -/
theorem C10_nonsuccess_text_only_witness :
    (submit_search .raisedHttp .raised).text ≠ "" ∧
    ((submit_search .raisedHttp .raised).video = none ∧
      (submit_search .raisedHttp .raised).is_adult = none) ∧
    Action.pm pmAdultText ∉ handle_message none 0
      ⟨.fetched, true, .raisedHttp, .raised, true, true, true, true, true, true⟩ :=
  ⟨(C10_nonsuccess_text_only .raisedHttp .raised none 0
      ⟨.fetched, true, .raisedHttp, .raised, true, true, true, true, true, true⟩).1,
   (C10_nonsuccess_text_only .raisedHttp .raised none 0
      ⟨.fetched, true, .raisedHttp, .raised, true, true, true, true, true, true⟩).2.1
     (by simp [successOutcome]),
   ((C10_nonsuccess_text_only .raisedHttp .raised none 0
      ⟨.fetched, true, .raisedHttp, .raised, true, true, true, true, true, true⟩).2.2
     (by simp [successOutcome])).2.1⟩

end AnimeOsint
